import Mathlib

/-!
A shallow embedding of the SingleApplication coordination engine
(src/singleapplication.cpp and src/singleapplication_p.h).  The bodies of the
SingleApplicationPrivate methods live in singleapplication_p.cpp, which is not
part of this repository snapshot; definitions for those are modelled from the
specification and carry a doc comment starting with "Modelled from the spec:".
Everything else is translated directly from the source, with the source line
numbers given in the doc comments.
-/

namespace SingleApp

/-- Connection handshake types, from singleapplication_p.h lines 59-64. -/
inductive ConnectionType where
  | InvalidConnection
  | NewInstance
  | SecondaryInstance
  | Reconnect
deriving DecidableEq, Repr

/-- Layout of the shared memory block, struct InstancesInfo in
singleapplication_p.h lines 40-46.  `secondary` is a quint32 (value below
2 ^ 32, established by initializeMemoryBlock and preserved by every writer:
the only arithmetic update wraps modulo 2 ^ 32), `primaryPid` a qint64,
`checksum` a quint16, `primaryUser` a 128-byte char buffer modelled by its
byte contents. -/
structure InstancesInfo where
  primary : Bool
  secondary : Nat
  primaryPid : Int
  checksum : Nat
  primaryUser : List Nat
deriving DecidableEq, Repr

/-- Modelled from the spec: SingleApplicationPrivate::blockChecksum, declared at
singleapplication_p.h line 82 with its body in the absent
singleapplication_p.cpp.  The spec requires "a deterministic hash of all the
other fields (primary flag, secondary count, primary pid, primary user)",
16 bits wide; we fix one concrete such hash. -/
def blockChecksum (primary : Bool) (secondary : Nat) (primaryPid : Int)
    (primaryUser : List Nat) : Nat :=
  let b0 : Nat := if primary then 1 else 0
  let pid : Nat := (primaryPid % (2 ^ 64 : Int)).toNat
  primaryUser.foldl (fun h c => (h * 131 + c) % 65536)
    ((b0 + 31 * (secondary % 65536) + 257 * (pid % 65536)) % 65536)

/-- The consistency test performed under the lock by the election loop,
singleapplication.cpp line 98: the stored checksum equals the recomputed one. -/
def checksumOk (inst : InstancesInfo) : Bool :=
  inst.checksum == blockChecksum inst.primary inst.secondary inst.primaryPid inst.primaryUser

/-- Modelled from the spec: SingleApplicationPrivate::initializeMemoryBlock,
declared at singleapplication_p.h line 77, body absent.  Spec: "resets the
block to no primary, zero secondaries and recomputes checksum" (also used for
first-time initialization: "zero/default-initializes the block, sets
checksum"). -/
def initializeMemoryBlock : InstancesInfo :=
  { primary := false, secondary := 0, primaryPid := 0, primaryUser := [],
    checksum := blockChecksum false 0 0 [] }

/-- Modelled from the spec: the shared-block commit performed by
SingleApplicationPrivate::startPrimary (declared at singleapplication_p.h
line 78, body absent).  Spec section 4.1: "commit is_primary_alive=true,
primary_process_id=self, primary_user_name=current user", recomputing the
checksum before releasing the lock. -/
def startPrimaryBlock (pid : Int) (user : List Nat) (inst : InstancesInfo) :
    InstancesInfo :=
  { primary := true, secondary := inst.secondary, primaryPid := pid,
    primaryUser := user,
    checksum := blockChecksum true inst.secondary pid user }

/-- Modelled from the spec: the shared-block commit performed by
SingleApplicationPrivate::startSecondary (declared at singleapplication_p.h
line 79, body absent).  Spec section 3: each admitted secondary is "assigned by
the primary ... by reading-then-incrementing secondary_count under the block's
lock", with 0 reserved, so the admitted instance takes the incremented count as
its id; the increment is quint32 arithmetic and wraps modulo 2 ^ 32; the
checksum is recomputed before the lock is released. -/
def startSecondaryBlock (inst : InstancesInfo) : InstancesInfo :=
  { primary := inst.primary, secondary := (inst.secondary + 1) % 2 ^ 32,
    primaryPid := inst.primaryPid, primaryUser := inst.primaryUser,
    checksum := blockChecksum inst.primary ((inst.secondary + 1) % 2 ^ 32)
      inst.primaryPid inst.primaryUser }

/-- Process-local state of SingleApplicationPrivate (singleapplication_p.h
lines 89-96): whether the QLocalServer was created (primary side), whether the
QLocalSocket is connected, and the assigned instanceNumber. -/
structure PrivState where
  server : Bool
  socket : Bool
  instanceNumber : Nat
deriving DecidableEq, Repr

/-- Modelled from the spec: the members are null/zero before role resolution
(the private constructor is in the absent singleapplication_p.cpp; the spec
reserves instance id 0 for the primary, which never goes through admission). -/
def initialPriv : PrivState :=
  { server := false, socket := false, instanceNumber := 0 }

/-- Outcome of the SingleApplication constructor, singleapplication.cpp
lines 43-139: a resolved role, a process exit, or still spinning inside the
consistency loop. -/
inductive StartOutcome where
  | Primary
  | Secondary
  | ExitSuccess
  | ExitFailure
  | Spinning
deriving DecidableEq, Repr

/-- Externally visible side effects of the modelled operations. -/
inductive Action where
  | connectToPrimary (t : ConnectionType)
  | socketWrite (bytes : List Nat)
deriving DecidableEq, Repr

/-- Result of the modelled constructor: outcome, final shared block, final
process-local state, and the socket actions performed. -/
structure StartResult where
  outcome : StartOutcome
  block : InstancesInfo
  priv : PrivState
  actions : List Action
deriving DecidableEq, Repr

/-- Role resolution once the loop has obtained a consistent read,
singleapplication.cpp lines 116-138.  The branch structure (primary flag test,
allowSecondary test, the SecondaryNotification connect, the NewInstance connect
before exit) is the source's; the two block commits are the spec-modelled
definitions above.  The whole read-test-commit runs under the single lock
acquired at line 94 and released at lines 118/128/132. -/
def resolveRole (allowSecondary notify : Bool) (pid : Int) (user : List Nat)
    (inst : InstancesInfo) : StartResult :=
  if inst.primary = false then
    { outcome := .Primary, block := startPrimaryBlock pid user inst,
      priv := { server := true, socket := false, instanceNumber := 0 },
      actions := [] }
  else if allowSecondary then
    let b := startSecondaryBlock inst
    { outcome := .Secondary, block := b,
      priv := { server := false, socket := notify, instanceNumber := b.secondary },
      actions :=
        if notify then [Action.connectToPrimary ConnectionType.SecondaryInstance]
        else [] }
  else
    { outcome := .ExitSuccess, block := inst, priv := initialPriv,
      actions := [Action.connectToPrimary ConnectionType.NewInstance] }

/-- Result of the consistency/staleness loop: final block, whether the loop
broke on a consistent read, and the elapsed times at which
initializeMemoryBlock was invoked to recover from inconsistency. -/
structure LoopResult where
  block : InstancesInfo
  broke : Bool
  reinits : List Nat
deriving DecidableEq, Repr

/-- The consistency/staleness loop, singleapplication.cpp lines 93-114.
`trace` lists the elapsed times, in milliseconds on the QElapsedTimer started
at line 90 immediately before the loop, of the process's successive checksum
checks; an exhausted trace means the process is still spinning in the loop.
On a mismatch past 5000 ms the block is reinitialized (lines 100-103) and the
loop continues; the consistent read that breaks the loop is re-attempted on the
next iteration. -/
def electionLoop : List Nat → InstancesInfo → LoopResult
  | [], inst => { block := inst, broke := false, reinits := [] }
  | t :: ts, inst =>
    if checksumOk inst then { block := inst, broke := true, reinits := [] }
    else if 5000 < t then
      let r := electionLoop ts initializeMemoryBlock
      { block := r.block, broke := r.broke, reinits := t :: r.reinits }
    else
      electionLoop ts inst

/-- Election loop followed by role resolution, singleapplication.cpp
lines 93-138. -/
def electAndResolve (allowSecondary notify : Bool) (pid : Int) (user : List Nat)
    (trace : List Nat) (inst : InstancesInfo) : StartResult :=
  let r := electionLoop trace inst
  if r.broke then resolveRole allowSecondary notify pid user r.block
  else { outcome := .Spinning, block := r.block, priv := initialPriv, actions := [] }

/-- The whole constructor, singleapplication.cpp lines 43-139.  `createOk` is
the result of memory->create (line 73), `attachOk` the result of
memory->attach (line 80, consulted only when creation failed); when both fail
the process exits with EXIT_FAILURE (line 84).  A successful creation
initializes the block under the lock (lines 75-77) before the loop runs. -/
def startModel (createOk attachOk allowSecondary notify : Bool) (pid : Int)
    (user : List Nat) (trace : List Nat) (existing : InstancesInfo) : StartResult :=
  if createOk then
    electAndResolve allowSecondary notify pid user trace initializeMemoryBlock
  else if attachOk then
    electAndResolve allowSecondary notify pid user trace existing
  else
    { outcome := .ExitFailure, block := existing, priv := initialPriv, actions := [] }

/-- N processes racing the constructor against one shared block.  The segment
lock serialises each process's whole check-and-commit critical section (the
lock taken at line 94 is held through the break at line 98 and the role commit
until the unlock at line 118 or 128), so any concurrent execution is some
sequential order of these transactions; the list gives the pids in that order.
Each transaction is a consistent-read pass of the loop followed by role
resolution. -/
def runElections (allowSecondary notify : Bool) :
    List Int → InstancesInfo → List StartOutcome × InstancesInfo
  | [], inst => ([], inst)
  | pid :: pids, inst =>
    let r := electAndResolve allowSecondary notify pid [] [0] inst
    let rest := runElections allowSecondary notify pids r.block
    (r.outcome :: rest.1, rest.2)

/-- Modelled from the spec: successive admissions of secondaries by one
primary; each admission performs the startSecondaryBlock commit under the lock
and the admitted process records the incremented count as its instanceNumber.
Returns the assigned instance ids in admission order together with the final
block. -/
def admitSecondaries : Nat → InstancesInfo → List Nat × InstancesInfo
  | 0, inst => ([], inst)
  | n + 1, inst =>
    let b := startSecondaryBlock inst
    let rest := admitSecondaries n b
    (b.secondary :: rest.1, rest.2)

/-- SingleApplication::isPrimary, singleapplication.cpp lines 150-154:
d->server != nullptr. -/
def isPrimary (st : PrivState) : Bool := st.server

/-- SingleApplication::isSecondary, singleapplication.cpp lines 156-160:
d->server == nullptr. -/
def isSecondary (st : PrivState) : Bool := !st.server

/-- SingleApplication::instanceId, singleapplication.cpp lines 162-166. -/
def instanceId (st : PrivState) : Nat := st.instanceNumber

/-- SingleApplication::sendMessage, singleapplication.cpp lines 186-201.  A
primary has nobody to connect to and returns false at once (lines 190-192);
otherwise the socket is (re)connected with the Reconnect handshake, the message
bytes are written, and the result of waitForBytesWritten — supplied here by the
oracle `bytesWritten` since it is decided by the peer and the OS — is
returned. -/
def sendMessage (st : PrivState) (message : List Nat) (bytesWritten : Bool) :
    Bool × PrivState × List Action :=
  if isPrimary st then (false, st, [])
  else
    (bytesWritten, { st with socket := true },
      [Action.connectToPrimary ConnectionType.Reconnect, Action.socketWrite message])

/-- Modelled from the spec: SingleApplicationPrivate::writeToSecondary,
declared at singleapplication_p.h line 81, body absent.  Spec section 4.3,
reply_to: look up the connection table; if the instance id is absent return
false immediately, otherwise frame and write the payload and return whether the
write flushed within the timeout (oracle `flushOk`). -/
def writeToSecondary (table : List Nat) (flushOk : Bool) (instId : Nat) : Bool :=
  if instId ∈ table then flushOk else false

/-- SingleApplication::replyMessage, singleapplication.cpp lines 203-213: a
non-primary returns false at once (lines 208-210); a primary delegates to
writeToSecondary. -/
def replyMessage (st : PrivState) (instId : Nat) (message : List Nat)
    (table : List Nat) (flushOk : Bool) : Bool × PrivState × List Action :=
  if !isPrimary st then (false, st, [])
  else
    (writeToSecondary table flushOk instId, st, [Action.socketWrite message])

/-- SingleApplication::waitForReply, singleapplication.cpp lines 215-230.  A
primary returns an empty byte array at once (lines 219-221); otherwise the
socket is (re)connected with the Reconnect handshake and the process blocks in
waitForReadyRead.  `arrival` is the socket oracle: `some bs` means bytes
arrived within the timeout and readAll returned `bs` (modelled from the spec:
the primary's reply is delivered as the body of one complete message), `none`
means the wait timed out, in which case an empty byte array is returned
(line 229). -/
def waitForReply (st : PrivState) (arrival : Option (List Nat)) :
    List Nat × PrivState × List Action :=
  if isPrimary st then ([], st, [])
  else
    match arrival with
    | some bs =>
        (bs, { st with socket := true },
          [Action.connectToPrimary ConnectionType.Reconnect])
    | none =>
        ([], { st with socket := true },
          [Action.connectToPrimary ConnectionType.Reconnect])

/-- Modelled from the spec: little-endian byte encoding used by the framing
codec (spec section 4.2), `w` bytes, least significant first. -/
def toLEBytes : Nat → Nat → List Nat
  | 0, _ => []
  | w + 1, v => v % 256 :: toLEBytes w (v / 256)

/-- Modelled from the spec: little-endian decoding, inverse of toLEBytes. -/
def fromLEBytes : List Nat → Nat
  | [] => 0
  | b :: bs => b + 256 * fromLEBytes bs

/-- Modelled from the spec: client-side framing of a Message (spec
section 4.2, performed inside the absent singleapplication_p.cpp): an 8-byte
little-endian signed body length, a 4-byte little-endian sender instance id,
then the body, whose first byte is the message kind tag and whose remaining
bytes are the opaque payload. -/
def encodeMessage (kind senderId : Nat) (payload : List Nat) : List Nat :=
  toLEBytes 8 (payload.length + 1) ++ (toLEBytes 4 senderId ++ (kind :: payload))

/-- Modelled from the spec: server-side parse and dispatch of one framed
message from a connection's accumulated bytes (spec sections 4.2-4.3, the
readInitMessageHeader/readInitMessageBody machinery of the absent
singleapplication_p.cpp): once the 12 header bytes and the full body are
available, return the message kind, the origin instance id, and the payload
handed to the host application. -/
def parseMessage (bs : List Nat) : Option (Nat × Nat × List Nat) :=
  if bs.length < 12 then none
  else if fromLEBytes (List.take 8 bs) = 0 then none
  else if (List.drop 12 bs).length < fromLEBytes (List.take 8 bs) then none
  else
    match List.drop 12 bs with
    | [] => none
    | k :: rest =>
        some (k, fromLEBytes (List.take 4 (List.drop 8 bs)),
          List.take (fromLEBytes (List.take 8 bs) - 1) rest)

/-- The random draw at singleapplication.cpp line 109:
QRandomGenerator::global()->bounded(8u, 18u) yields a value in [8, 18); `r` is
the generator's raw output. -/
def boundedRandom (r : Nat) : Nat := 8 + r % 10

/-- Duration slept, in milliseconds, by the election-loop backoff at
singleapplication.cpp line 109.  QThread::sleep takes its argument in seconds,
so the process sleeps boundedRandom r seconds, i.e. 1000 * boundedRandom r
milliseconds. -/
def electionSleepMs (r : Nat) : Nat := 1000 * boundedRandom r

/-- A block left behind by a crashed primary: a committed primary record whose
stored checksum was corrupted by the crash mid-update (off by one from the
recomputed hash). -/
def crashedBlock : InstancesInfo :=
  { primary := true, secondary := 0, primaryPid := 42, primaryUser := [65],
    checksum := (blockChecksum true 0 42 [65] + 1) % 65536 }

theorem checksumOk_initializeMemoryBlock : checksumOk initializeMemoryBlock = true := by
  decide

theorem checksumOk_startPrimaryBlock (pid : Int) (user : List Nat)
    (inst : InstancesInfo) : checksumOk (startPrimaryBlock pid user inst) = true := by
  simp [checksumOk, startPrimaryBlock]

theorem checksumOk_startSecondaryBlock (inst : InstancesInfo) :
    checksumOk (startSecondaryBlock inst) = true := by
  simp [checksumOk, startSecondaryBlock]

theorem primary_startSecondaryBlock (inst : InstancesInfo) :
    (startSecondaryBlock inst).primary = inst.primary := rfl

/-- Claim C2: whenever no writer holds the lock the stored checksum equals the
hash recomputed over the remaining fields; every writer — the initializer and
reinitializer (initializeMemoryBlock) and the two commits (startPrimaryBlock,
startSecondaryBlock) — recomputes the checksum before releasing the lock, so
the consistency predicate holds after every completed write. -/
theorem claim_C2_checksum_invariant :
    checksumOk initializeMemoryBlock = true
    ∧ (∀ pid user inst, checksumOk (startPrimaryBlock pid user inst) = true)
    ∧ (∀ inst, checksumOk (startSecondaryBlock inst) = true) :=
  ⟨checksumOk_initializeMemoryBlock,
   fun pid user inst => checksumOk_startPrimaryBlock pid user inst,
   fun inst => checksumOk_startSecondaryBlock inst⟩

/-- Claim C4: the claim says the election backoff sleeps at least 8 and less
than 18 milliseconds.  The random draw at singleapplication.cpp line 109 is
indeed in [8, 18), but it is passed to QThread::sleep, whose unit is seconds:
the process sleeps exactly 1000 * boundedRandom r milliseconds, which is 8000
milliseconds even for the smallest draw and never below 8000 — the millisecond
claim fails for every draw. -/
theorem claim_C4_sleep_unit :
    electionSleepMs 0 = 8000
    ∧ (∀ r, 8 ≤ boundedRandom r ∧ boundedRandom r < 18)
    ∧ (∀ r, 8000 ≤ electionSleepMs r ∧ ¬ electionSleepMs r < 18) := by
  refine ⟨rfl, fun r => ?_, fun r => ?_⟩ <;>
    simp only [boundedRandom, electionSleepMs] <;> omega

/-- Claim C9: isPrimary and isSecondary are mutually exclusive and exhaustive
in every process state — exactly one of them is true, and isSecondary is the
negation of isPrimary. -/
theorem claim_C9_role_predicates (st : PrivState) :
    isSecondary st = !isPrimary st
    ∧ (isPrimary st = true ∧ isSecondary st = false
       ∨ isPrimary st = false ∧ isSecondary st = true) := by
  cases h : st.server <;> simp [isPrimary, isSecondary, h]

/-- Claim C7: waitForReply on a secondary returns the body bytes of the first
complete message that arrives before the timeout, returns the empty byte
sequence on timeout, and a timeout is indistinguishable from a genuine
zero-byte reply. -/
theorem claim_C7_wait_for_reply (st : PrivState) (h : isSecondary st = true)
    (bs : List Nat) :
    (waitForReply st (some bs)).1 = bs
    ∧ (waitForReply st none).1 = []
    ∧ (waitForReply st none).1 = (waitForReply st (some [])).1 := by
  have hp : isPrimary st = false := by
    simp only [isSecondary, Bool.not_eq_true'] at h
    simpa [isPrimary] using h
  simp [waitForReply, hp]

theorem claim_C7_wait_for_reply_witness :
    (waitForReply initialPriv (some [7, 7])).1 = [7, 7]
    ∧ (waitForReply initialPriv none).1 = [] :=
  ⟨(claim_C7_wait_for_reply initialPriv rfl [7, 7]).1,
   (claim_C7_wait_for_reply initialPriv rfl [7, 7]).2.1⟩

/-- Claim C10: sendMessage and waitForReply called on a primary return false,
respectively the empty byte sequence, immediately, and replyMessage called on a
non-primary returns false immediately; in each wrong-role case no socket action
is performed and the process state is unchanged. -/
theorem claim_C10_wrong_role_guards (st : PrivState) (msg : List Nat) (w : Bool)
    (arrival : Option (List Nat)) (instId : Nat) (table : List Nat) (f : Bool) :
    (isPrimary st = true →
      sendMessage st msg w = (false, st, [])
      ∧ waitForReply st arrival = ([], st, []))
    ∧ (isPrimary st = false →
      replyMessage st instId msg table f = (false, st, [])) := by
  constructor
  · intro h
    constructor <;> simp [sendMessage, waitForReply, h]
  · intro h
    simp [replyMessage, h]

theorem claim_C10_wrong_role_guards_witness :
    sendMessage { server := true, socket := false, instanceNumber := 0 } [1] true
      = (false, { server := true, socket := false, instanceNumber := 0 }, [])
    ∧ replyMessage initialPriv 1 [2] [1] true = (false, initialPriv, []) :=
  ⟨(claim_C10_wrong_role_guards
      { server := true, socket := false, instanceNumber := 0 } [1] true none 1 [] true).1
      rfl |>.1,
   (claim_C10_wrong_role_guards initialPriv [2] true none 1 [1] true).2 rfl⟩

theorem electionLoop_reinits_late (trace : List Nat) (inst : InstancesInfo) :
    ∀ t ∈ (electionLoop trace inst).reinits, 5000 < t := by
  induction trace generalizing inst with
  | nil => intro t ht; simp [electionLoop] at ht
  | cons s ts ih =>
    intro t ht
    by_cases hc : checksumOk inst
    · simp [electionLoop, hc] at ht
    · by_cases hs : 5000 < s
      · simp only [electionLoop, hc, Bool.false_eq_true, if_false, hs, if_true] at ht
        rcases List.mem_cons.mp ht with h | h
        · exact h ▸ hs
        · exact ih initializeMemoryBlock t h
      · simp only [electionLoop, hc, Bool.false_eq_true, if_false, hs] at ht
        exact ih inst t ht

theorem electionLoop_stuck (trace : List Nat) (inst : InstancesInfo)
    (hc : checksumOk inst = false) (h : ∀ t ∈ trace, t ≤ 5000) :
    electionLoop trace inst = { block := inst, broke := false, reinits := [] } := by
  induction trace with
  | nil => rfl
  | cons s ts ih =>
    have hs : ¬ 5000 < s := by
      have := h s (List.mem_cons_self s ts)
      omega
    have hrest : ∀ t ∈ ts, t ≤ 5000 := fun t ht => h t (List.mem_cons_of_mem s ht)
    simp only [electionLoop, hc, Bool.false_eq_true, if_false, hs]
    exact ih hrest

/-- Election loop with a consistent block breaks at the first check. -/
theorem electAndResolve_consistent (a n : Bool) (pid : Int) (user : List Nat)
    (t : Nat) (ts : List Nat) (inst : InstancesInfo) (hc : checksumOk inst = true) :
    electAndResolve a n pid user (t :: ts) inst = resolveRole a n pid user inst := by
  simp [electAndResolve, electionLoop, hc]

/-- Claim C3: during election, reinitialization never happens before the block
has been observed inconsistent for more than the 5000 ms staleness threshold
(the timer starts immediately before the first check, so every check preceding
the reinitialization observed the inconsistency); a process whose checks all
fall within the window neither reinitializes nor claims the primary role, while
a process that checks again past the threshold (here at 6000 ms) reinitializes
the block and resolves as Primary. -/
theorem claim_C3_staleness_threshold :
    (∀ trace inst, ∀ t ∈ (electionLoop trace inst).reinits, 5000 < t)
    ∧ (∀ allowSecondary notify pid user trace, (∀ t ∈ trace, t ≤ 5000) →
        (electionLoop trace crashedBlock).reinits = []
        ∧ (electAndResolve allowSecondary notify pid user trace crashedBlock).outcome
            ≠ StartOutcome.Primary)
    ∧ ((electAndResolve true false 7 [] [0, 6000, 6001] crashedBlock).outcome
         = StartOutcome.Primary
       ∧ (electionLoop [0, 6000, 6001] crashedBlock).reinits = [6000]) := by
  refine ⟨electionLoop_reinits_late, ?_, by decide, by decide⟩
  intro allowSecondary notify pid user trace h
  have hc : checksumOk crashedBlock = false := by decide
  have hst := electionLoop_stuck trace crashedBlock hc h
  refine ⟨by rw [hst], ?_⟩
  simp [electAndResolve, hst]

theorem claim_C3_staleness_threshold_witness :
    (electionLoop [1000] crashedBlock).reinits = []
    ∧ (electAndResolve true false 7 [] [0, 6000, 6001] crashedBlock).outcome
        = StartOutcome.Primary :=
  ⟨(claim_C3_staleness_threshold.2.1 true false 7 [] [1000] (by decide)).1,
   claim_C3_staleness_threshold.2.2.1⟩

theorem runElections_all_secondary (notify : Bool) (pids : List Int)
    (inst : InstancesInfo) (hc : checksumOk inst = true) (hp : inst.primary = true) :
    (runElections true notify pids inst).1
      = List.replicate pids.length StartOutcome.Secondary := by
  induction pids generalizing inst with
  | nil => rfl
  | cons p ps ih =>
    simp only [runElections, electAndResolve_consistent _ _ _ _ _ _ _ hc,
      resolveRole, hp, List.length_cons, List.replicate_succ]
    simp only [Bool.true_eq_false, if_false, if_true, List.cons.injEq, true_and]
    exact ih (startSecondaryBlock inst) (checksumOk_startSecondaryBlock inst)
      ((primary_startSecondaryBlock inst).trans hp)

/-- Claim C1: when N processes race the constructor with the same identifier
and allow_secondary = true, starting from a consistent block with no designated
primary, exactly one transaction resolves to Primary and the other N - 1
resolve to Secondary (the segment lock serialises the whole check-and-commit
critical section, so any concurrent run is some sequential order of these
transactions). -/
theorem claim_C1_exactly_one_primary (notify : Bool) (pids : List Int)
    (hne : pids ≠ []) (inst : InstancesInfo) (hc : checksumOk inst = true)
    (hp : inst.primary = false) :
    (runElections true notify pids inst).1.count StartOutcome.Primary = 1
    ∧ (runElections true notify pids inst).1.count StartOutcome.Secondary
        = pids.length - 1 := by
  match pids, hne with
  | p :: ps, _ =>
    have hstep : (runElections true notify (p :: ps) inst).1
        = StartOutcome.Primary :: List.replicate ps.length StartOutcome.Secondary := by
      simp only [runElections, electAndResolve_consistent _ _ _ _ _ _ _ hc,
        resolveRole, hp, if_true, List.cons.injEq, true_and]
      exact runElections_all_secondary notify ps _
        (checksumOk_startPrimaryBlock p [] inst) rfl
    rw [hstep]
    simp [List.count_cons, List.count_replicate]

theorem claim_C1_exactly_one_primary_witness :
    (runElections true false [1, 2, 3] initializeMemoryBlock).1.count
        StartOutcome.Primary = 1
    ∧ (runElections true false [1, 2, 3] initializeMemoryBlock).1.count
        StartOutcome.Secondary = 2 :=
  claim_C1_exactly_one_primary false [1, 2, 3] (by decide) initializeMemoryBlock
    (by decide) rfl

theorem secondary_startSecondaryBlock (inst : InstancesInfo)
    (h : inst.secondary + 1 < 2 ^ 32) :
    (startSecondaryBlock inst).secondary = inst.secondary + 1 := by
  simp only [startSecondaryBlock]
  exact Nat.mod_eq_of_lt h

theorem admitSecondaries_lt (n : Nat) (inst : InstancesInfo)
    (hlt : inst.secondary + n < 2 ^ 32) :
    ∀ x ∈ (admitSecondaries n inst).1, inst.secondary < x := by
  induction n generalizing inst with
  | zero => intro x hx; simp [admitSecondaries] at hx
  | succ n ih =>
    intro x hx
    have hb : (startSecondaryBlock inst).secondary = inst.secondary + 1 :=
      secondary_startSecondaryBlock inst (by omega)
    simp only [admitSecondaries] at hx
    rcases List.mem_cons.mp hx with h | h
    · omega
    · have h1 := ih (startSecondaryBlock inst) (by omega) x h
      omega

theorem admitSecondaries_pairwise (n : Nat) (inst : InstancesInfo)
    (hlt : inst.secondary + n < 2 ^ 32) :
    List.Pairwise (· < ·) (admitSecondaries n inst).1 := by
  induction n generalizing inst with
  | zero => exact List.Pairwise.nil
  | succ n ih =>
    have hb : (startSecondaryBlock inst).secondary = inst.secondary + 1 :=
      secondary_startSecondaryBlock inst (by omega)
    simp only [admitSecondaries]
    refine List.Pairwise.cons ?_ (ih (startSecondaryBlock inst) (by omega))
    intro x hx
    have h1 := admitSecondaries_lt n (startSecondaryBlock inst) (by omega) x hx
    omega

/-- A consistent block whose quint32 secondary counter is about to wrap: the
next admission assigns id 2 ^ 32 - 1 and the one after wraps to 0. -/
def wrapBlock : InstancesInfo :=
  { primary := true, secondary := 2 ^ 32 - 2, primaryPid := 9, primaryUser := [],
    checksum := blockChecksum true (2 ^ 32 - 2) 9 [] }

/-- Claim C5 counterexample: `secondary` is a quint32, so the admission
increment wraps modulo 2 ^ 32; two admissions from a block whose counter holds
2 ^ 32 - 2 assign the ids [4294967295, 0], which are not strictly increasing
(and the second admitted secondary receives the reserved id 0), refuting the
claim's unconditional statement. -/
theorem claim_C5_instance_ids_counterexample :
    (admitSecondaries 2 wrapBlock).1 = [4294967295, 0]
    ∧ ¬ List.Pairwise (· < ·) (admitSecondaries 2 wrapBlock).1 := by
  constructor
  · decide
  · decide

/-- Claim C5 (amended): provided the quint32 secondary counter does not wrap
during the admissions (the starting count plus the number of admissions stays
below 2 ^ 32), the instance ids assigned by one primary to its admitted
secondaries — each obtained by incrementing the block's secondary count under
the lock — are pairwise distinct and strictly increasing in admission order;
and the instanceId of the primary process itself (which resolves Primary
without going through admission) is 0. -/
theorem claim_C5_instance_ids (n : Nat) (inst : InstancesInfo)
    (hlt : inst.secondary + n < 2 ^ 32) :
    List.Pairwise (· < ·) (admitSecondaries n inst).1
    ∧ (∀ attachOk allowSecondary notify pid user existing,
        (startModel true attachOk allowSecondary notify pid user [0] existing).outcome
          = StartOutcome.Primary
        ∧ instanceId
            (startModel true attachOk allowSecondary notify pid user [0] existing).priv
          = 0) := by
  refine ⟨admitSecondaries_pairwise n inst hlt, ?_⟩
  intro attachOk allowSecondary notify pid user existing
  have hm : startModel true attachOk allowSecondary notify pid user [0] existing
      = resolveRole allowSecondary notify pid user initializeMemoryBlock := by
    show electAndResolve allowSecondary notify pid user [0] initializeMemoryBlock
        = resolveRole allowSecondary notify pid user initializeMemoryBlock
    exact electAndResolve_consistent _ _ _ _ _ _ _ checksumOk_initializeMemoryBlock
  rw [hm]
  have hp : initializeMemoryBlock.primary = false := rfl
  constructor <;> simp [resolveRole, hp, instanceId]

theorem claim_C5_instance_ids_witness :
    initializeMemoryBlock.secondary + 3 < 2 ^ 32
    ∧ List.Pairwise (· < ·) (admitSecondaries 3 initializeMemoryBlock).1
    ∧ (startModel true false true false 5 [] [0] initializeMemoryBlock).outcome
        = StartOutcome.Primary :=
  ⟨by decide,
   (claim_C5_instance_ids 3 initializeMemoryBlock (by decide)).1,
   ((claim_C5_instance_ids 3 initializeMemoryBlock (by decide)).2
      false true false 5 [] initializeMemoryBlock).1⟩

/-- Claim C8: a process that resolves Secondary while allow_secondary is false
notifies the primary through a NewInstance connection and exits with the
success status (the constructor never returns a role in that case), and a
process for which the shared segment can neither be created nor attached exits
with the failure status. -/
theorem claim_C8_exit_paths :
    (∀ notify pid user t ts inst,
      checksumOk inst = true → inst.primary = true →
      (startModel false true false notify pid user (t :: ts) inst).outcome
          = StartOutcome.ExitSuccess
      ∧ Action.connectToPrimary ConnectionType.NewInstance
          ∈ (startModel false true false notify pid user (t :: ts) inst).actions)
    ∧ (∀ allowSecondary notify pid user trace inst,
      (startModel false false allowSecondary notify pid user trace inst).outcome
        = StartOutcome.ExitFailure) := by
  constructor
  · intro notify pid user t ts inst hc hp
    have hm : startModel false true false notify pid user (t :: ts) inst
        = resolveRole false notify pid user inst := by
      simp [startModel, electAndResolve_consistent _ _ _ _ _ _ _ hc]
    rw [hm]
    simp [resolveRole, hp]
  · intro allowSecondary notify pid user trace inst
    simp [startModel]

theorem claim_C8_exit_paths_witness :
    (startModel false true false false 3 [] [0]
        (startPrimaryBlock 42 [] initializeMemoryBlock)).outcome
      = StartOutcome.ExitSuccess
    ∧ (startModel false false true false 3 [] [0] initializeMemoryBlock).outcome
      = StartOutcome.ExitFailure :=
  ⟨(claim_C8_exit_paths.1 false 3 [] 0 []
      (startPrimaryBlock 42 [] initializeMemoryBlock) (by decide) rfl).1,
   claim_C8_exit_paths.2 true false 3 [] [0] initializeMemoryBlock⟩

theorem toLEBytes_length (w v : Nat) : (toLEBytes w v).length = w := by
  induction w generalizing v with
  | zero => rfl
  | succ w ih => simp [toLEBytes, ih]

theorem fromLEBytes_toLEBytes (w v : Nat) (h : v < 256 ^ w) :
    fromLEBytes (toLEBytes w v) = v := by
  induction w generalizing v with
  | zero =>
    have hv : v = 0 := by
      have h1 : v < 1 := by simpa using h
      omega
    simp [hv, toLEBytes, fromLEBytes]
  | succ w ih =>
    have hdiv : v / 256 < 256 ^ w := by
      rw [Nat.div_lt_iff_lt_mul (by norm_num : (0 : Nat) < 256)]
      calc v < 256 ^ (w + 1) := h
        _ = 256 ^ w * 256 := by rw [pow_succ]
    simp only [toLEBytes, fromLEBytes, ih (v / 256) hdiv]
    exact Nat.mod_add_div v 256

/-- Claim C6: for every payload, the byte sequence the secondary frames for
send_message, once parsed and dispatched by the server, is byte-for-byte the
payload handed to the host application (the sender id fits the 4-byte header
field and the body length the signed 8-byte field). -/
theorem claim_C6_payload_roundtrip (kind senderId : Nat) (payload : List Nat)
    (hsid : senderId < 2 ^ 32) (hlen : payload.length + 1 < 2 ^ 63) :
    parseMessage (encodeMessage kind senderId payload)
      = some (kind, senderId, payload) := by
  have h8 : (toLEBytes 8 (payload.length + 1)).length = 8 := toLEBytes_length 8 _
  have h4 : (toLEBytes 4 senderId).length = 4 := toLEBytes_length 4 _
  have htake8 : List.take 8 (encodeMessage kind senderId payload)
      = toLEBytes 8 (payload.length + 1) := List.take_left' h8
  have hdrop8 : List.drop 8 (encodeMessage kind senderId payload)
      = toLEBytes 4 senderId ++ (kind :: payload) := List.drop_left' h8
  have htake4 : List.take 4 (List.drop 8 (encodeMessage kind senderId payload))
      = toLEBytes 4 senderId := by rw [hdrop8]; exact List.take_left' h4
  have hdrop12 : List.drop 12 (encodeMessage kind senderId payload)
      = kind :: payload := by
    have hdd : List.drop 12 (encodeMessage kind senderId payload)
        = List.drop 4 (List.drop 8 (encodeMessage kind senderId payload)) := by
      rw [List.drop_drop]
    rw [hdd, hdrop8]
    exact List.drop_left' h4
  have e8 : fromLEBytes (List.take 8 (encodeMessage kind senderId payload))
      = payload.length + 1 := by
    rw [htake8]
    refine fromLEBytes_toLEBytes 8 _ ?_
    have h64 : (256 : Nat) ^ 8 = 2 ^ 64 := by norm_num
    have h63 : (2 : Nat) ^ 63 < 2 ^ 64 := by norm_num
    omega
  have e4 : fromLEBytes (List.take 4 (List.drop 8 (encodeMessage kind senderId payload)))
      = senderId := by
    rw [htake4]
    refine fromLEBytes_toLEBytes 4 _ ?_
    have h32 : (256 : Nat) ^ 4 = 2 ^ 32 := by norm_num
    omega
  have hlenenc : (encodeMessage kind senderId payload).length = payload.length + 13 := by
    simp only [encodeMessage, List.length_append, h8, h4, List.length_cons]
    omega
  unfold parseMessage
  rw [hlenenc, e8, hdrop12, e4]
  rw [if_neg (by omega), if_neg (by omega),
    if_neg (by simp only [List.length_cons]; omega)]
  simp

theorem claim_C6_payload_roundtrip_witness :
    parseMessage (encodeMessage 3 1 [112, 105, 110, 103])
      = some (3, 1, [112, 105, 110, 103]) :=
  claim_C6_payload_roundtrip 3 1 [112, 105, 110, 103] (by decide) (by decide)

end SingleApp
